import Mathlib

/-!
Shallow embedding of the session/token lifecycle and API request pipeline of
the task-management client (src/lib/api.ts and src/hooks/useTokenExpiration.ts).

Modelling conventions:
- JavaScript numbers are modelled as Int (epoch milliseconds, seconds, HTTP
  status codes); floating point is not relevant to the modelled code paths.
- A value of TypeScript type "string | null" is Option String, and
  "number | null" / optional numbers are Option Int.
- JavaScript truthiness is modelled explicitly: the empty string and 0 are
  falsy, which matters because the source guards with plain "if (x)".
- The code always runs in a browser, so every "typeof window !== undefined"
  guard in the source is taken to hold.
- localStorage (auth_token, auth_token_expires_at), sessionStorage
  (session_expired) and window.location are part of the explicit client state.
- fetch is an oracle passed to the request function: either an HTTP response
  (status, statusText, content-type, body) or a thrown value.
-/

/-- JS truthiness of a "string | null | undefined" value: null/undefined and
the empty string are falsy. -/
def strTruthy : Option String → Bool
  | none => false
  | some s => !(s == "")

/-- JS truthiness of a "number | null | undefined" value: null/undefined and 0
are falsy. -/
def numTruthy : Option Int → Bool
  | none => false
  | some n => !(n == 0)

/-- Whether the first character list starts the second one. -/
def charListLeads : List Char → List Char → Bool
  | [], _ => true
  | _ :: _, [] => false
  | p :: ps, c :: cs => p == c && charListLeads ps cs

/-- Whether the pattern occurs somewhere in the character list. -/
def charListIncludes (pat : List Char) : List Char → Bool
  | [] => pat.isEmpty
  | c :: rest => charListLeads pat (c :: rest) || charListIncludes pat rest

/-- JS String.prototype.includes: naive substring search over the character
data of the two strings. -/
def strIncludes (s pat : String) : Bool :=
  charListIncludes pat.data s.data

/-- The client-side state observable by the ApiClient: the two in-memory
fields of the class, the two localStorage keys, the sessionStorage
session_expired flag, and window.location (pathname and href). -/
structure ClientState where
  token : Option String
  tokenExpiresAt : Option Int
  localToken : Option String
  localExpiresAt : Option Int
  sessionExpiredFlag : Bool
  pathname : String
  href : String
deriving Repr, DecidableEq

/-- ApiClient.setToken (api.ts lines 30-47). Sets the in-memory token
unconditionally; if the token is truthy it is persisted, and the expiry is
recomputed and persisted only when expiresInSeconds is truthy (so 0 and
undefined leave any previous expiry in place); a falsy token removes both
persisted values and clears the in-memory expiry. -/
def setToken (s : ClientState) (token : Option String)
    (expiresInSeconds : Option Int) (now : Int) : ClientState :=
  let s1 := { s with token := token }
  if strTruthy token then
    let s2 := { s1 with localToken := token }
    if numTruthy expiresInSeconds then
      let expiresAt := now + expiresInSeconds.getD 0 * 1000
      { s2 with tokenExpiresAt := some expiresAt, localExpiresAt := some expiresAt }
    else
      s2
  else
    { s1 with localToken := none, localExpiresAt := none, tokenExpiresAt := none }

/-- ApiClient.getToken (api.ts lines 49-51). -/
def getToken (s : ClientState) : Option String := s.token

/-- ApiClient.getTokenExpiresAt (api.ts lines 53-55). -/
def getTokenExpiresAt (s : ClientState) : Option Int := s.tokenExpiresAt

/-- ApiClient.isTokenExpired (api.ts lines 57-65): falsy token means expired;
falsy expiry (null or 0) means not expired; otherwise Date.now() is compared
with the stored instant. -/
def isTokenExpired (s : ClientState) (now : Int) : Bool :=
  if !(strTruthy s.token) then true
  else if !(numTruthy s.tokenExpiresAt) then false
  else decide (s.tokenExpiresAt.getD 0 ≤ now)

/-- The normalized error shape thrown by the pipeline (types/api.ts ApiError). -/
structure ApiError where
  message : String
  status : Int
deriving Repr, DecidableEq

/-- What response.json() yields on an error body, in the shapes the code
distinguishes: the JSON value null (member access on it throws a TypeError at
api.ts line 146), a JSON string (typeof errorBody is string), or anything
else read through its detail/message/title members — absent members are none,
and non-object non-null JSON bodies (numbers, booleans, arrays) behave as an
object with all three members absent, since member access on them yields
undefined rather than throwing. -/
inductive JsonVal where
  | jnull
  | jstr (s : String)
  | jobj (detail message title : Option String)
deriving Repr, DecidableEq

/-- Outcome of calling response.json(): the parsed value, or a thrown
SyntaxError carrying a message (invalid JSON). -/
inductive JsonParse where
  | ok (v : JsonVal)
  | fail (errMsg : String)
deriving Repr, DecidableEq

/-- A response body, as observable through response.text() (the raw bytes as
text) and response.json() (the outcome of parsing that same text). -/
structure ResponseBody where
  rawText : String
  parsed : JsonParse
deriving Repr, DecidableEq

/-- An HTTP response as the code reads it: status, statusText, content-type
header (null when absent), and the body. -/
structure HttpResponse where
  status : Int
  statusText : String
  contentType : Option String
  body : ResponseBody
deriving Repr, DecidableEq

/-- A value thrown below the HTTP layer (or rethrown): an object that already
carries a status member, an Error instance with a message, or any other
thrown value. -/
inductive ThrownValue where
  | withStatus (e : ApiError)
  | jsError (message : String)
  | other
deriving Repr, DecidableEq

/-- What fetch does for one call: deliver a response, or throw. -/
inductive NetworkOutcome where
  | response (r : HttpResponse)
  | thrown (e : ThrownValue)
deriving Repr, DecidableEq

/-- api.ts lines 122-125: JSON-ness of a response, decided from the
content-type header (null content-type is falsy, hence not JSON). -/
def isJsonContentType : Option String → Bool
  | none => false
  | some ct => strIncludes ct "application/json" || strIncludes ct "application/problem+json"

/-- api.ts line 123 area: response.ok is true iff the status is in 200..299. -/
def responseOk (r : HttpResponse) : Bool :=
  decide (200 ≤ r.status) && decide (r.status ≤ 299)

/-- The value bound to errorBody at api.ts line 141: response.json() when the
content-type says JSON (which may throw), response.text() otherwise. -/
def errorBodyVal (isJson : Bool) (b : ResponseBody) : JsonParse :=
  if isJson then b.parsed else .ok (.jstr b.rawText)

/-- api.ts lines 142-154: the message extracted from a successfully read error
body — the string itself when the body is a string, else the first truthy one
of detail, message, title, else the HTTP fallback. For the JSON body null the
member access errorBody.detail at line 146 throws a TypeError instead of
producing a message, modelled as none and handled by the catch block. -/
def messageFromBody (v : JsonVal) (status : Int) (statusText : String) :
    Option String :=
  match v with
  | .jnull => none
  | .jstr t => some t
  | .jobj d m t =>
    if strTruthy d then some (d.getD "")
    else if strTruthy m then some (m.getD "")
    else if strTruthy t then some (t.getD "")
    else some ("HTTP " ++ toString status ++ ": " ++ statusText)

/-- Message of the TypeError raised by reading a member of the JSON value
null (engine dependent; written here in the V8 style without the member
name). The pipeline only depends on it containing none of the three
substrings the catch block classifies. -/
def nullFieldTypeErrorMessage : String :=
  "Cannot read properties of null"

/-- api.ts lines 168-192, the catch block: anything carrying a status member
is rethrown unchanged; an Error instance is classified by substrings of its
message into one of four fixed messages with status 0; any other thrown value
gets the generic unexpected-error message with status 0. -/
def classifyCatch : ThrownValue → ApiError
  | .withStatus e => e
  | .jsError m =>
    if strIncludes m "Failed to fetch" then
      ⟨"Unable to connect to the server. Please check your internet connection and try again.", 0⟩
    else if strIncludes m "NetworkError" then
      ⟨"Network error. Please check your internet connection and try again.", 0⟩
    else if strIncludes m "CORS" then
      ⟨"Service temporarily unavailable. Please try again later.", 0⟩
    else
      ⟨"An error occurred. Please try again.", 0⟩
  | .other => ⟨"An unexpected error occurred. Please try again.", 0⟩

/-- How one pipeline call ends: resolve with a parsed JSON body, resolve with
the empty object (204 or non-JSON success), or reject with a normalized
error. -/
inductive RequestResult where
  | ok (v : JsonVal)
  | okEmpty
  | err (e : ApiError)
deriving Repr, DecidableEq

/-- Observable outcome of one ApiClient.request call: the client state
afterwards, the settled result, whether the network layer was reached, the
Authorization header attached (if any), and whether a redirect to /login was
triggered by assigning window.location.href. -/
structure RequestOutcome where
  state : ClientState
  result : RequestResult
  networkCalled : Bool
  authHeader : Option String
  redirected : Bool
deriving Repr, DecidableEq

/-- ApiClient.request (api.ts lines 75-194), with fetch abstracted as a
NetworkOutcome oracle. Pre-flight expiry short-circuit, bearer header
attachment, 204 handling, 401 session clearing with conditional redirect,
error-body message extraction, and the catch-block classification. -/
def request (s : ClientState) (now : Int) (net : NetworkOutcome) : RequestOutcome :=
  if strTruthy s.token && isTokenExpired s now then
    let s1 := setToken s none none now
    let s2 := { s1 with sessionExpiredFlag := true, href := "/login" }
    { state := s2,
      result := .err ⟨"Your session has expired. Please login again.", 401⟩,
      networkCalled := false, authHeader := none, redirected := true }
  else
    let authHeader := if strTruthy s.token then some ("Bearer " ++ s.token.getD "") else none
    match net with
    | .thrown e =>
      { state := s, result := .err (classifyCatch e),
        networkCalled := true, authHeader := authHeader, redirected := false }
    | .response r =>
      if r.status == 204 then
        { state := s, result := .okEmpty,
          networkCalled := true, authHeader := authHeader, redirected := false }
      else
        let isJson := isJsonContentType r.contentType
        if responseOk r then
          if isJson then
            match r.body.parsed with
            | .ok v =>
              { state := s, result := .ok v,
                networkCalled := true, authHeader := authHeader, redirected := false }
            | .fail em =>
              { state := s, result := .err (classifyCatch (.jsError em)),
                networkCalled := true, authHeader := authHeader, redirected := false }
          else
            { state := s, result := .okEmpty,
              networkCalled := true, authHeader := authHeader, redirected := false }
        else
          let onLogin := strIncludes s.pathname "/login"
          let redirected := r.status == 401 && !onLogin
          let s1 :=
            if r.status == 401 then
              let sA := setToken s none none now
              if !onLogin then { sA with sessionExpiredFlag := true, href := "/login" }
              else sA
            else s
          match errorBodyVal isJson r.body with
          | .ok v =>
            match messageFromBody v r.status r.statusText with
            | some msg =>
              { state := s1, result := .err ⟨msg, r.status⟩,
                networkCalled := true, authHeader := authHeader,
                redirected := redirected }
            | none =>
              { state := s1,
                result := .err (classifyCatch (.jsError nullFieldTypeErrorMessage)),
                networkCalled := true, authHeader := authHeader,
                redirected := redirected }
          | .fail em =>
            { state := s1, result := .err (classifyCatch (.jsError em)),
              networkCalled := true, authHeader := authHeader, redirected := redirected }

/-- ApiClient.logout (api.ts lines 215-225): perform the logout POST inside a
try/catch that absorbs any rejection, then clear the session locally. -/
def logout (s : ClientState) (now : Int) (net : NetworkOutcome) : ClientState :=
  let afterReq := (request s now net).state
  setToken afterReq none none now

/-- The optional filter object accepted by getTasks (types/api.ts TaskFilters):
page and size are numbers, q free text, status and sort enum strings. -/
structure TaskFilters where
  page : Option Int
  size : Option Int
  q : Option String
  status : Option String
  sort : Option String
deriving Repr, DecidableEq

/-- ApiClient.getTasks (api.ts lines 228-245): the list of query parameters
appended to URLSearchParams, in source order; each field is appended only when
its plain truthiness check passes (so 0 and the empty string are skipped). -/
def buildTaskParams (f : TaskFilters) : List (String × String) :=
  (if numTruthy f.page then [("page", toString (f.page.getD 0))] else []) ++
  (if numTruthy f.size then [("size", toString (f.size.getD 0))] else []) ++
  (if strTruthy f.q then [("q", f.q.getD "")] else []) ++
  (if strTruthy f.status then [("status", f.status.getD "")] else []) ++
  (if strTruthy f.sort then [("sort", f.sort.getD "")] else [])

/-- URLSearchParams.toString, with the value encoding left as the identity
(none of the claims depends on percent-encoding of the values). -/
def joinParams (ps : List (String × String)) : String :=
  String.intercalate "&" (ps.map fun p => p.1 ++ "=" ++ p.2)

/-- api.ts lines 247-252: the endpoint for the task list, with the query
string appended only when nonempty; a missing filters argument contributes no
parameters at all. -/
def getTasksEndpoint (filters : Option TaskFilters) : String :=
  let params := match filters with
    | none => []
    | some f => buildTaskParams f
  let queryString := joinParams params
  if queryString == "" then "/api/v1/tasks" else "/api/v1/tasks?" ++ queryString

/-- Observable outcome of one tick of the expiration watcher
(useTokenExpiration.ts checkTokenExpiration): the client state afterwards,
the warningShown ref afterwards, the minutes figure of the toast raised this
tick (none when no toast), and whether router.replace navigated to /login. -/
structure TickResult where
  state : ClientState
  warningShown : Bool
  warningMinutes : Option Int
  navigatedToLogin : Bool
deriving Repr, DecidableEq

/-- Math.floor division for Int (JS float division then Math.floor). -/
def floorDiv (a b : Int) : Int := Int.fdiv a b

/-- Math.ceil division for Int (JS float division then Math.ceil). -/
def ceilDiv (a b : Int) : Int := -(Int.fdiv (-a) b)

/-- checkTokenExpiration (useTokenExpiration.ts lines 41-81): early return
resetting warningShown when token or expiry is falsy; on expiry clear the
session, set the session_expired flag and navigate to /login; otherwise raise
the one-time warning when within the threshold, and re-arm the warning flag
when comfortably before the threshold. -/
def checkTokenExpiration (s : ClientState) (now : Int) (warningShown : Bool)
    (warningThresholdSeconds : Int) : TickResult :=
  let token := getToken s
  let expiresAt := getTokenExpiresAt s
  if !(strTruthy token) || !(numTruthy expiresAt) then
    { state := s, warningShown := false, warningMinutes := none,
      navigatedToLogin := false }
  else
    let timeUntilExpiry := expiresAt.getD 0 - now
    let timeUntilExpirySeconds := floorDiv timeUntilExpiry 1000
    if timeUntilExpiry ≤ 0 then
      let s1 := setToken s none none now
      let s2 := { s1 with sessionExpiredFlag := true, href := "/login" }
      { state := s2, warningShown := warningShown, warningMinutes := none,
        navigatedToLogin := true }
    else
      let fired :=
        timeUntilExpirySeconds ≤ warningThresholdSeconds && !warningShown
      let minutes := ceilDiv timeUntilExpirySeconds 60
      let shown1 := if fired then true else warningShown
      let shown2 :=
        if timeUntilExpirySeconds > warningThresholdSeconds + 60 then false
        else shown1
      { state := s, warningShown := shown2,
        warningMinutes := if fired then some minutes else none,
        navigatedToLogin := false }

/-- A prior session state with a stored token and expiry, used to exhibit the
partial update performed by setToken. -/
def c3PrevState : ClientState :=
  ⟨some "old", some 5000, some "old", some 5000, false, "/tasks", "/tasks"⟩

/-- Counterexample to claim C3: starting from a state whose token and expiry
came from a previous session, setToken with a non-null token and no
expiresInSeconds updates the token to the new value while the expiry kept in
memory and in durable storage is still the previous session value 5000 — an
operation that updates one of the two fields while leaving a value from a
previous session in the other, which the claim says never happens. -/
theorem c3_counterexample :
    (setToken c3PrevState (some "new") none 10000).token = some "new" ∧
    (setToken c3PrevState (some "new") none 10000).tokenExpiresAt = some 5000 ∧
    (setToken c3PrevState (some "new") none 10000).localExpiresAt = some 5000 ∧
    c3PrevState.token = some "old" ∧ c3PrevState.tokenExpiresAt = some 5000 := by
  decide

/-- Claim C3 (amended): setToken with a null token clears token and expiry
together, and setToken with a nonempty token and a nonzero expiresInSeconds
writes token and a consistent expiry together; but setToken with a non-null
token and an omitted or zero expiresInSeconds updates only the token, leaving
any expiry from a previous session in place in memory and durable storage. -/
theorem c3_amended (s : ClientState) (now : Int) (t : String) (e : Int)
    (ht : t ≠ "") (he : e ≠ 0) :
    ((setToken s none (some e) now).token = none ∧
     (setToken s none (some e) now).localToken = none ∧
     (setToken s none (some e) now).tokenExpiresAt = none ∧
     (setToken s none (some e) now).localExpiresAt = none) ∧
    ((setToken s (some t) (some e) now).token = some t ∧
     (setToken s (some t) (some e) now).localToken = some t ∧
     (setToken s (some t) (some e) now).tokenExpiresAt = some (now + e * 1000) ∧
     (setToken s (some t) (some e) now).localExpiresAt = some (now + e * 1000)) ∧
    ((setToken s (some t) none now).tokenExpiresAt = s.tokenExpiresAt ∧
     (setToken s (some t) none now).localExpiresAt = s.localExpiresAt ∧
     (setToken s (some t) (some 0) now).tokenExpiresAt = s.tokenExpiresAt ∧
     (setToken s (some t) (some 0) now).localExpiresAt = s.localExpiresAt) := by
  have ht' : (t == "") = false := by simpa using ht
  have he' : (e == 0) = false := by simpa using he
  simp [setToken, strTruthy, numTruthy, ht', he']

/-- Witness for c3_amended at a concrete state, token and expiry. -/
theorem c3_amended_witness :
    "new" ≠ "" ∧ (3600 : Int) ≠ 0 ∧
    (setToken c3PrevState (some "new") (some 3600) 10000).tokenExpiresAt
      = some (10000 + 3600 * 1000) := by
  refine ⟨by decide, by decide, ?_⟩
  exact (c3_amended c3PrevState 10000 "new" 3600 (by decide) (by decide)).2.1.2.2.1

/-- Claim C4: logout clears the session locally — afterwards getToken is null
and the expiry and both durable values are gone — for every prior state and
every network outcome (response of any status, rejection, or a thrown value;
a pre-flight expiry throw inside the wrapped call is the case where the
stored token is already expired, also covered by the quantifier). -/
theorem c4_logout_clears (s : ClientState) (now : Int) (net : NetworkOutcome) :
    getToken (logout s now net) = none ∧
    getTokenExpiresAt (logout s now net) = none ∧
    (logout s now net).localToken = none ∧
    (logout s now net).localExpiresAt = none := by
  simp [logout, setToken, strTruthy, getToken, getTokenExpiresAt]

/-- A state holding a token with a recorded expiry of exactly 0, the falsy
edge of the expiry guard. -/
def c5State : ClientState :=
  ⟨some "tok", some 0, some "tok", some 0, false, "/tasks", "/tasks"⟩

/-- Counterexample to claim C5: a token is present and an expiry (0) is
recorded with the current time (5) at or past it, so the claim requires
isTokenExpired to be true; the code returns false because a stored expiry of
0 fails the truthiness guard and is treated as no recorded expiry. -/
theorem c5_counterexample :
    getToken c5State ≠ none ∧
    getTokenExpiresAt c5State = some 0 ∧
    (0 : Int) ≤ 5 ∧
    isTokenExpired c5State 5 = false := by
  decide

/-- Claim C5 (amended): isTokenExpired is true exactly when no truthy token
is stored (null or the empty string, both falsy, count as no token and are
always reported expired), or a nonzero expiry is recorded and the current
time is at or past it; a nonempty token with no recorded expiry — or with
the falsy recorded expiry 0 — is reported as not expired. -/
theorem c5_amended (s : ClientState) (now : Int) :
    (isTokenExpired s now = true ↔
      (strTruthy (getToken s) = false ∨
       (∃ e : Int, getTokenExpiresAt s = some e ∧ e ≠ 0 ∧ e ≤ now))) ∧
    (strTruthy (getToken s) = true → getTokenExpiresAt s = none →
       isTokenExpired s now = false) ∧
    (strTruthy (getToken s) = true → getTokenExpiresAt s = some 0 →
       isTokenExpired s now = false) ∧
    (strTruthy (getToken s) = false → isTokenExpired s now = true) := by
  rcases s with ⟨tok, exp, lt, le, fl, pn, hr⟩
  simp only [isTokenExpired, getToken, getTokenExpiresAt]
  cases tok with
  | none => simp [strTruthy]
  | some ts =>
    cases exp with
    | none => by_cases hts : ts = "" <;> simp [strTruthy, numTruthy, hts]
    | some e =>
      by_cases hts : ts = "" <;> by_cases hez : e = 0 <;>
        simp [strTruthy, numTruthy, hts, hez]

/-- A state holding a nonempty token with no recorded expiry. -/
def c5NoExpiryState : ClientState :=
  ⟨some "tok", none, some "tok", none, false, "/tasks", "/tasks"⟩

/-- Witness for c5_amended: a nonempty token with no recorded expiry is not
expired at time 99. -/
theorem c5_witness :
    strTruthy (getToken c5NoExpiryState) = true ∧
    getTokenExpiresAt c5NoExpiryState = none ∧
    isTokenExpired c5NoExpiryState 99 = false := by
  have h := c5_amended c5NoExpiryState 99
  exact ⟨by decide, rfl, h.2.1 (by decide) rfl⟩

/-- Counterexample to claim C10: the empty string is a non-null token, yet
setToken with it and an omitted expiresInSeconds does not leave the stored
expiry unchanged — the falsy branch of the token guard (api.ts lines 33-45)
removes both persisted values and clears the in-memory expiry, while the
in-memory token becomes the empty string rather than null. -/
theorem c10_counterexample :
    c3PrevState.tokenExpiresAt = some 5000 ∧
    (some "" : Option String) ≠ none ∧
    (setToken c3PrevState (some "") none 10000).token = some "" ∧
    (setToken c3PrevState (some "") none 10000).tokenExpiresAt = none ∧
    (setToken c3PrevState (some "") none 10000).localToken = none ∧
    (setToken c3PrevState (some "") none 10000).localExpiresAt = none := by
  decide

/-- Claim C10 (amended): starting from any state with a recorded expiry,
setToken with a nonempty token and an omitted or zero expiresInSeconds
stores the new token while leaving the previously stored expiry unchanged in
memory and in durable storage; when that inherited expiry is a nonzero
instant already at or before now, the freshly stored token immediately
reports as expired. The non-null empty-string token instead takes the falsy
clearing branch: both persisted values and the in-memory expiry are removed
while the in-memory token becomes the empty string. -/
theorem c10_inherited_expiry (s : ClientState) (now : Int) (t : String)
    (ht : t ≠ "") (he : getTokenExpiresAt s ≠ none) :
    ((setToken s (some t) none now).token = some t ∧
     (setToken s (some t) none now).localToken = some t ∧
     (setToken s (some t) none now).tokenExpiresAt = s.tokenExpiresAt ∧
     (setToken s (some t) none now).localExpiresAt = s.localExpiresAt) ∧
    ((setToken s (some t) (some 0) now).token = some t ∧
     (setToken s (some t) (some 0) now).localToken = some t ∧
     (setToken s (some t) (some 0) now).tokenExpiresAt = s.tokenExpiresAt ∧
     (setToken s (some t) (some 0) now).localExpiresAt = s.localExpiresAt) ∧
    (∀ e : Int, s.tokenExpiresAt = some e → e ≠ 0 → e ≤ now →
       isTokenExpired (setToken s (some t) none now) now = true ∧
       isTokenExpired (setToken s (some t) (some 0) now) now = true) ∧
    ((setToken s (some "") none now).token = some "" ∧
     (setToken s (some "") none now).tokenExpiresAt = none ∧
     (setToken s (some "") none now).localToken = none ∧
     (setToken s (some "") none now).localExpiresAt = none) := by
  have ht' : (t == "") = false := by simpa using ht
  refine ⟨?_, ?_, ?_, ?_⟩
  · simp [setToken, strTruthy, numTruthy, ht']
  · simp [setToken, strTruthy, numTruthy, ht']
  · intro e hee hez hle
    have he' : (e == 0) = false := by simpa using hez
    simp [setToken, strTruthy, numTruthy, isTokenExpired, ht', hee, he', hle]
  · simp [setToken, strTruthy]

/-- Witness for c10_inherited_expiry: a state expiring at 5000 with the clock
at 10000; the re-stored token keeps the stale expiry and reports expired. -/
theorem c10_witness :
    "new" ≠ "" ∧ getTokenExpiresAt c3PrevState ≠ none ∧
    (setToken c3PrevState (some "new") none 10000).tokenExpiresAt = some 5000 ∧
    isTokenExpired (setToken c3PrevState (some "new") none 10000) 10000 = true := by
  have h := c10_inherited_expiry c3PrevState 10000 "new" (by decide) (by decide)
  exact ⟨by decide, by decide, h.1.2.2.1.trans (by decide),
    (h.2.2.1 5000 (by decide) (by decide) (by decide)).1⟩

/-- Claim C1: when a usable (nonempty, hence truthy) token is stored and
isTokenExpired is true, the request pipeline performs no network call, clears
the session in memory and durable storage, sets the durable session_expired
flag, and fails with the normalized error carrying the fixed message and
status 401. -/
theorem c1_expired_preflight (s : ClientState) (now : Int) (net : NetworkOutcome)
    (htok : strTruthy (getToken s) = true)
    (hexp : isTokenExpired s now = true) :
    (request s now net).networkCalled = false ∧
    getToken (request s now net).state = none ∧
    getTokenExpiresAt (request s now net).state = none ∧
    (request s now net).state.localToken = none ∧
    (request s now net).state.localExpiresAt = none ∧
    (request s now net).state.sessionExpiredFlag = true ∧
    (request s now net).result =
      .err ⟨"Your session has expired. Please login again.", 401⟩ := by
  simp only [getToken] at htok
  have hg : (strTruthy s.token && isTokenExpired s now) = true := by
    simp [htok, hexp]
  simp only [request, hg]
  simp [setToken, strTruthy, getToken, getTokenExpiresAt]

/-- Witness for c1_expired_preflight: a token stored with expiry 5000 and the
clock at 6000; the pipeline short-circuits without touching the network. -/
theorem c1_witness :
    strTruthy (getToken c3PrevState) = true ∧
    isTokenExpired c3PrevState 6000 = true ∧
    (request c3PrevState 6000 (.thrown .other)).networkCalled = false ∧
    (request c3PrevState 6000 (.thrown .other)).result =
      .err ⟨"Your session has expired. Please login again.", 401⟩ := by
  have h := c1_expired_preflight c3PrevState 6000 (.thrown .other)
    (by decide) (by decide)
  exact ⟨by decide, by decide, h.1, h.2.2.2.2.2.2⟩

/-- Claim C2: a 401 response from the server (reached because the pre-flight
guard did not fire) clears the session, so getToken afterwards is null; the
durable session_expired flag is set and the redirect to /login is triggered
exactly when the current pathname does not contain /login (the code notion of
being on the login view), and neither happens when it does. -/
theorem c2_server401 (s : ClientState) (now : Int) (r : HttpResponse)
    (hpre : (strTruthy s.token && isTokenExpired s now) = false)
    (h401 : r.status = 401) :
    getToken (request s now (.response r)).state = none ∧
    getTokenExpiresAt (request s now (.response r)).state = none ∧
    (request s now (.response r)).state.localToken = none ∧
    (request s now (.response r)).state.localExpiresAt = none ∧
    (strIncludes s.pathname "/login" = false →
       (request s now (.response r)).state.sessionExpiredFlag = true ∧
       (request s now (.response r)).redirected = true) ∧
    (strIncludes s.pathname "/login" = true →
       (request s now (.response r)).state.sessionExpiredFlag = s.sessionExpiredFlag ∧
       (request s now (.response r)).redirected = false) := by
  obtain ⟨status, stext, ct, body⟩ := r
  simp only at h401
  subst h401
  cases hbody : errorBodyVal (isJsonContentType ct) body with
  | ok v =>
    cases hmv : messageFromBody v 401 stext with
    | none =>
      by_cases hl : strIncludes s.pathname "/login" <;>
        · simp only [request, hpre]
          simp [responseOk, hbody, hmv, hl, setToken, strTruthy, getToken,
            getTokenExpiresAt]
    | some msg =>
      by_cases hl : strIncludes s.pathname "/login" <;>
        · simp only [request, hpre]
          simp [responseOk, hbody, hmv, hl, setToken, strTruthy, getToken,
            getTokenExpiresAt]
  | fail em =>
    by_cases hl : strIncludes s.pathname "/login" <;>
      · simp only [request, hpre]
        simp [responseOk, hbody, hl, setToken, strTruthy, getToken,
          getTokenExpiresAt]

/-- Witness for c2_server401: no stored token, a 401 JSON response while on
/tasks; the session ends cleared, flagged, and redirected. -/
theorem c2_witness :
    ((strTruthy (none : Option String) && false) = false) ∧
    getToken (request ⟨none, none, none, none, false, "/tasks", "/tasks"⟩ 0
      (.response ⟨401, "Unauthorized", some "application/json",
        ⟨"", .ok (.jobj none (some "bad token") none)⟩⟩)).state = none ∧
    (request ⟨none, none, none, none, false, "/tasks", "/tasks"⟩ 0
      (.response ⟨401, "Unauthorized", some "application/json",
        ⟨"", .ok (.jobj none (some "bad token") none)⟩⟩)).redirected = true := by
  have h := c2_server401 ⟨none, none, none, none, false, "/tasks", "/tasks"⟩ 0
    ⟨401, "Unauthorized", some "application/json",
      ⟨"", .ok (.jobj none (some "bad token") none)⟩⟩ (by decide) (by decide)
  exact ⟨by decide, h.1, (h.2.2.2.2.1 (by decide)).2⟩

/-- A non-JSON (text/plain) 500 response whose body text is a JSON object
with only a detail field. -/
def c6Resp : HttpResponse :=
  ⟨500, "Internal Server Error", some "text/plain",
    ⟨"\x7b \"detail\": \"boom\" \x7d", .ok (.jobj (some "boom") none none)⟩⟩

/-- A state with no stored token, so the pre-flight guard cannot fire. -/
def noTokenState : ClientState :=
  ⟨none, none, none, none, false, "/tasks", "/tasks"⟩

/-- Counterexample to claim C6: a non-JSON error body whose text is a JSON
object with only detail present ("boom") yields a normalized error whose
message is the raw text body, not the detail value — the code only consults
detail/message/title when the content-type marks the body as JSON, and reads
a non-JSON body through response.text(). -/
theorem c6_counterexample :
    isJsonContentType c6Resp.contentType = false ∧
    c6Resp.body.parsed = .ok (.jobj (some "boom") none none) ∧
    (request noTokenState 0 (.response c6Resp)).result =
      .err ⟨"\x7b \"detail\": \"boom\" \x7d", 500⟩ ∧
    "\x7b \"detail\": \"boom\" \x7d" ≠ "boom" := by
  decide

/-- Claim C6 (amended): for a non-2xx response whose content-type marks the
body as JSON (plain or problem JSON), the message is the detail field when
present and nonempty, else message, else title, and the fixed
HTTP status/statusText fallback when all three are absent or empty; when the
content-type does not mark the body as JSON the message is the raw text body
(even if that text happens to be JSON containing a detail field); the JSON
body null makes the member access throw, which the catch block turns into
the generic retry message with status 0 rather than the HTTP fallback. -/
theorem c6_amended (s : ClientState) (now : Int) (r : HttpResponse)
    (hpre : (strTruthy s.token && isTokenExpired s now) = false)
    (h204 : r.status ≠ 204)
    (hok : responseOk r = false) :
    (isJsonContentType r.contentType = false →
       (request s now (.response r)).result = .err ⟨r.body.rawText, r.status⟩) ∧
    (∀ dv m t, isJsonContentType r.contentType = true →
       r.body.parsed = .ok (.jobj (some dv) m t) → dv ≠ "" →
       (request s now (.response r)).result = .err ⟨dv, r.status⟩) ∧
    (∀ d mv t, isJsonContentType r.contentType = true →
       r.body.parsed = .ok (.jobj d (some mv) t) →
       strTruthy d = false → mv ≠ "" →
       (request s now (.response r)).result = .err ⟨mv, r.status⟩) ∧
    (∀ d m tv, isJsonContentType r.contentType = true →
       r.body.parsed = .ok (.jobj d m (some tv)) →
       strTruthy d = false → strTruthy m = false → tv ≠ "" →
       (request s now (.response r)).result = .err ⟨tv, r.status⟩) ∧
    (∀ d m t, isJsonContentType r.contentType = true →
       r.body.parsed = .ok (.jobj d m t) →
       strTruthy d = false → strTruthy m = false → strTruthy t = false →
       (request s now (.response r)).result =
         .err ⟨"HTTP " ++ toString r.status ++ ": " ++ r.statusText, r.status⟩) ∧
    (isJsonContentType r.contentType = true →
       r.body.parsed = .ok .jnull →
       (request s now (.response r)).result =
         .err ⟨"An error occurred. Please try again.", 0⟩) := by
  obtain ⟨status, stext, ct, body⟩ := r
  simp only at h204 hok ⊢
  have h204b : (status == 204) = false := by simpa using h204
  refine ⟨?_, ?_, ?_, ?_, ?_, ?_⟩
  · intro hj
    simp only [request, hpre]
    simp [h204b, hok, hj, errorBodyVal, messageFromBody]
  · intro dv m t hj hp hdv
    have hdv' : (dv == "") = false := by simpa using hdv
    simp only [request, hpre]
    simp [h204b, hok, hj, errorBodyVal, hp, messageFromBody, strTruthy, hdv']
  · intro d mv t hj hp hd hmv
    have hsm : strTruthy (some mv) = true := by
      simpa [strTruthy] using hmv
    simp only [request, hpre]
    simp [h204b, hok, hj, errorBodyVal, hp, messageFromBody, hd, hsm]
  · intro d m tv hj hp hd hm htv
    have hst : strTruthy (some tv) = true := by
      simpa [strTruthy] using htv
    simp only [request, hpre]
    simp [h204b, hok, hj, errorBodyVal, hp, messageFromBody, hd, hm, hst]
  · intro d m t hj hp hd hm ht
    simp only [request, hpre]
    simp [h204b, hok, hj, errorBodyVal, hp, messageFromBody, hd, hm, ht]
  · intro hj hp
    have hcl : classifyCatch (.jsError nullFieldTypeErrorMessage) =
        ⟨"An error occurred. Please try again.", 0⟩ := by decide
    simp only [request, hpre]
    simp [h204b, hok, hj, errorBodyVal, hp, messageFromBody, hcl]

/-- A JSON 400 response whose object body has only a detail field. -/
def c6DetailResp : HttpResponse :=
  ⟨400, "Bad Request", some "application/json",
    ⟨"", .ok (.jobj (some "boom") none none)⟩⟩

/-- Witness for c6_amended: a JSON 400 response with only detail present
produces the detail value as the message. -/
theorem c6_witness :
    responseOk c6DetailResp = false ∧
    isJsonContentType c6DetailResp.contentType = true ∧
    (request noTokenState 0 (.response c6DetailResp)).result =
      .err ⟨"boom", 400⟩ := by
  have h := c6_amended noTokenState 0 c6DetailResp (by decide) (by decide)
    (by decide)
  exact ⟨by decide, by decide, h.2.1 "boom" none none (by decide) rfl (by decide)⟩

/-- Claim C7: when the underlying call itself threw, the pipeline rethrows
unchanged any value already carrying a status member, and otherwise fails
with status 0 and a message classified from the failure text — a connectivity
failure (Failed to fetch) gives the cannot-connect message, a network-layer
failure (NetworkError) the generic network message, a cross-origin failure
(CORS) the temporarily-unavailable message, and anything else a generic retry
message; the connectivity message indeed contains the word connect and the
cross-origin one the words temporarily unavailable. -/
theorem c7_thrown_classification (s : ClientState) (now : Int) (e : ThrownValue)
    (hpre : (strTruthy s.token && isTokenExpired s now) = false) :
    (∀ ae, e = .withStatus ae →
       (request s now (.thrown e)).result = .err ae) ∧
    (∀ msg, e = .jsError msg →
      (strIncludes msg "Failed to fetch" = true →
        (request s now (.thrown e)).result =
          .err ⟨"Unable to connect to the server. Please check your internet connection and try again.", 0⟩) ∧
      (strIncludes msg "Failed to fetch" = false →
       strIncludes msg "NetworkError" = true →
        (request s now (.thrown e)).result =
          .err ⟨"Network error. Please check your internet connection and try again.", 0⟩) ∧
      (strIncludes msg "Failed to fetch" = false →
       strIncludes msg "NetworkError" = false →
       strIncludes msg "CORS" = true →
        (request s now (.thrown e)).result =
          .err ⟨"Service temporarily unavailable. Please try again later.", 0⟩) ∧
      (strIncludes msg "Failed to fetch" = false →
       strIncludes msg "NetworkError" = false →
       strIncludes msg "CORS" = false →
        (request s now (.thrown e)).result =
          .err ⟨"An error occurred. Please try again.", 0⟩)) ∧
    (e = .other →
       (request s now (.thrown e)).result =
         .err ⟨"An unexpected error occurred. Please try again.", 0⟩) ∧
    strIncludes
      "Unable to connect to the server. Please check your internet connection and try again."
      "connect" = true ∧
    strIncludes "Service temporarily unavailable. Please try again later."
      "temporarily unavailable" = true := by
  refine ⟨?_, ?_, ?_, by decide, by decide⟩
  · rintro ae rfl
    simp only [request, hpre]
    simp [classifyCatch]
  · rintro msg rfl
    refine ⟨?_, ?_, ?_, ?_⟩ <;> intro h1 <;>
      first
      | (intro h2 h3
         simp only [request, hpre]
         simp [classifyCatch, h1, h2, h3])
      | (intro h2
         simp only [request, hpre]
         simp [classifyCatch, h1, h2])
      | (simp only [request, hpre]
         simp [classifyCatch, h1])
  · rintro rfl
    simp only [request, hpre]
    simp [classifyCatch]

/-- Witness for c7_thrown_classification: a thrown Failed-to-fetch error with
no stored token maps to the cannot-connect message with status 0. -/
theorem c7_witness :
    strIncludes "Failed to fetch" "Failed to fetch" = true ∧
    (request noTokenState 0 (.thrown (.jsError "Failed to fetch"))).result =
      .err ⟨"Unable to connect to the server. Please check your internet connection and try again.", 0⟩ := by
  have h := c7_thrown_classification noTokenState 0 (.jsError "Failed to fetch")
    (by decide)
  exact ⟨by decide, (h.2.1 "Failed to fetch" rfl).1 (by decide)⟩

/-- A state holding a token whose recorded expiry is the falsy instant 0, as
read by the expiration watcher. -/
def c8State : ClientState :=
  ⟨some "tok", some 0, some "tok", some 0, false, "/tasks", "/tasks"⟩

/-- Counterexample to claim C8: with a token and an expiry (0) recorded and
the remaining time far below 0 (now is 60000), the claim requires the tick to
clear the session, set the durable flag and navigate to login; the code takes
the falsy-expiry early return instead — nothing is cleared, no navigation
happens, and the warning flag is even reset although the remaining time does
not exceed the threshold plus 60 seconds. -/
theorem c8_counterexample :
    getToken c8State ≠ none ∧
    getTokenExpiresAt c8State = some 0 ∧
    ((0 : Int) - 60000 ≤ 0) ∧
    (checkTokenExpiration c8State 60000 true 300).state = c8State ∧
    (checkTokenExpiration c8State 60000 true 300).navigatedToLogin = false ∧
    (checkTokenExpiration c8State 60000 true 300).state.sessionExpiredFlag = false ∧
    (checkTokenExpiration c8State 60000 true 300).warningShown = false := by
  decide

/-- Claim C8 (amended): on every watcher tick while a nonempty token and a
nonzero expiry are recorded — the code treats an empty token or a zero expiry
as absent — if the remaining time is at most 0 the session is cleared, the
durable flag set and navigation to login performed with no warning raised;
else if the remaining floored seconds are within the threshold and no warning
has been shown, exactly one warning is raised carrying the remaining whole
minutes rounded up from those seconds and the flag is set; a tick never warns
while the flag is already set, and the flag goes from set to reset only when
the remaining seconds exceed the threshold plus 60. -/
theorem c8_amended (s : ClientState) (now : Int) (ws : Bool) (thr : Int)
    (htok : strTruthy (getToken s) = true)
    (hexp : numTruthy (getTokenExpiresAt s) = true) :
    ((getTokenExpiresAt s).getD 0 - now ≤ 0 →
       getToken (checkTokenExpiration s now ws thr).state = none ∧
       getTokenExpiresAt (checkTokenExpiration s now ws thr).state = none ∧
       (checkTokenExpiration s now ws thr).state.localToken = none ∧
       (checkTokenExpiration s now ws thr).state.localExpiresAt = none ∧
       (checkTokenExpiration s now ws thr).state.sessionExpiredFlag = true ∧
       (checkTokenExpiration s now ws thr).navigatedToLogin = true ∧
       (checkTokenExpiration s now ws thr).warningMinutes = none) ∧
    (0 < (getTokenExpiresAt s).getD 0 - now →
     floorDiv ((getTokenExpiresAt s).getD 0 - now) 1000 ≤ thr → ws = false →
       (checkTokenExpiration s now ws thr).warningMinutes =
         some (ceilDiv (floorDiv ((getTokenExpiresAt s).getD 0 - now) 1000) 60) ∧
       (checkTokenExpiration s now ws thr).warningShown = true) ∧
    (0 < (getTokenExpiresAt s).getD 0 - now → ws = true →
       (checkTokenExpiration s now ws thr).warningMinutes = none) ∧
    (ws = true → (checkTokenExpiration s now ws thr).warningShown = false →
       floorDiv ((getTokenExpiresAt s).getD 0 - now) 1000 > thr + 60) := by
  simp only [getToken, getTokenExpiresAt] at htok hexp ⊢
  have hguard : (!(strTruthy s.token) || !(numTruthy s.tokenExpiresAt)) = false := by
    simp [htok, hexp]
  refine ⟨?_, ?_, ?_, ?_⟩
  · intro hle
    simp only [checkTokenExpiration, getToken, getTokenExpiresAt, hguard]
    simp [hle, setToken, strTruthy]
  · intro hpos hsec hws
    subst hws
    have hpos' : ¬(s.tokenExpiresAt.getD 0 - now ≤ 0) := by omega
    have hnf : ¬(floorDiv (s.tokenExpiresAt.getD 0 - now) 1000 > thr + 60) := by
      omega
    simp only [checkTokenExpiration, getToken, getTokenExpiresAt, hguard]
    simp [hpos', hsec, hnf]
  · intro hpos hws
    subst hws
    have hpos' : ¬(s.tokenExpiresAt.getD 0 - now ≤ 0) := by omega
    simp only [checkTokenExpiration, getToken, getTokenExpiresAt, hguard]
    simp [hpos']
  · intro hws
    subst hws
    by_cases hpos : s.tokenExpiresAt.getD 0 - now ≤ 0
    · simp only [checkTokenExpiration, getToken, getTokenExpiresAt, hguard]
      simp [hpos]
    · by_cases hfar : floorDiv (s.tokenExpiresAt.getD 0 - now) 1000 > thr + 60
      · intro _
        exact hfar
      · simp only [checkTokenExpiration, getToken, getTokenExpiresAt, hguard]
        simp [hpos, hfar]

/-- A healthy session for the watcher witness: expiry at 400000 with the
clock at 100000, leaving 300 whole seconds. -/
def c8LiveState : ClientState :=
  ⟨some "tok", some 400000, some "tok", some 400000, false, "/tasks", "/tasks"⟩

/-- Witness for c8_amended: 300 remaining seconds against a 300-second
threshold raises the warning with 5 minutes and sets the flag. -/
theorem c8_witness :
    strTruthy (getToken c8LiveState) = true ∧
    numTruthy (getTokenExpiresAt c8LiveState) = true ∧
    (checkTokenExpiration c8LiveState 100000 false 300).warningMinutes = some 5 ∧
    (checkTokenExpiration c8LiveState 100000 false 300).warningShown = true := by
  have h := c8_amended c8LiveState 100000 false 300 (by decide) (by decide)
  have h2 := h.2.1 (by decide) (by decide) rfl
  exact ⟨by decide, by decide, h2.1.trans (by decide), h2.2⟩

/-- A filter object whose only present field is page with the falsy value 0. -/
def c9Filters : TaskFilters := ⟨some 0, none, none, none, none⟩

/-- Counterexample to claim C9: page is present in the filter object, yet no
page parameter is serialized and the request URL carries no query string at
all, because the code guards each field with plain truthiness and 0 is
falsy. -/
theorem c9_counterexample :
    c9Filters.page = some 0 ∧
    (buildTaskParams c9Filters).map Prod.fst = [] ∧
    getTasksEndpoint (some c9Filters) = "/api/v1/tasks" := by
  decide

/-- Claim C9 (amended): each of page, size, q, status and sort is serialized
as a query parameter exactly when it is present with a truthy value (a
nonzero number, a nonempty string); when no field passes that test the
parameter list is empty and the URL carries no query string, as it also does
when no filter object is passed at all. -/
theorem c9_amended (f : TaskFilters) :
    ("page" ∈ (buildTaskParams f).map Prod.fst ↔ numTruthy f.page = true) ∧
    ("size" ∈ (buildTaskParams f).map Prod.fst ↔ numTruthy f.size = true) ∧
    ("q" ∈ (buildTaskParams f).map Prod.fst ↔ strTruthy f.q = true) ∧
    ("status" ∈ (buildTaskParams f).map Prod.fst ↔ strTruthy f.status = true) ∧
    ("sort" ∈ (buildTaskParams f).map Prod.fst ↔ strTruthy f.sort = true) ∧
    (buildTaskParams f = [] → getTasksEndpoint (some f) = "/api/v1/tasks") ∧
    getTasksEndpoint none = "/api/v1/tasks" := by
  refine ⟨?_, ?_, ?_, ?_, ?_, ?_, by decide⟩
  · simp only [buildTaskParams, List.map_append, List.mem_append]
    split_ifs <;> simp_all
  · simp only [buildTaskParams, List.map_append, List.mem_append]
    split_ifs <;> simp_all
  · simp only [buildTaskParams, List.map_append, List.mem_append]
    split_ifs <;> simp_all
  · simp only [buildTaskParams, List.map_append, List.mem_append]
    split_ifs <;> simp_all
  · simp only [buildTaskParams, List.map_append, List.mem_append]
    split_ifs <;> simp_all
  · intro h
    have hj : joinParams ([] : List (String × String)) = "" := rfl
    simp [getTasksEndpoint, h, hj]

/-- Witness for c9_amended: a filter with only a query string fills exactly
the q parameter; the all-absent filter produces the bare endpoint. -/
theorem c9_witness :
    buildTaskParams (⟨none, none, none, none, none⟩ : TaskFilters) = [] ∧
    getTasksEndpoint (some ⟨none, none, none, none, none⟩) = "/api/v1/tasks" ∧
    ("q" ∈ (buildTaskParams ⟨none, none, some "abc", none, none⟩).map Prod.fst) := by
  refine ⟨by decide, ?_, ?_⟩
  · exact (c9_amended ⟨none, none, none, none, none⟩).2.2.2.2.2.1 (by decide)
  · exact ((c9_amended ⟨none, none, some "abc", none, none⟩).2.2.1).2 (by decide)
